import Mathlib

/-!
Shallow embedding of `src/main.py` (a small e-commerce catalog: `Product`,
`Category` with process-wide counters, `Order`, and `load_data_from_json`)
together with theorems settling the specification claims.

Modelling conventions:
* Python floats are modelled as exact rationals (`Rat`); Python ints as `Int`.
* Python exceptions are modelled by `Except PyErr _`; a function in which the
  source catches every exception it can raise is modelled as a total function.
* Python object identity (`id`, the default `==` used by `in`) is modelled by
  an `oid : Nat` field; two values denote the same Python object iff their
  `oid`s agree.
* `str.strip()` is modelled by `pyStrip` (surrounding-whitespace removal; the
  exact whitespace set is irrelevant to every claim).
-/

namespace EcommerceHW

/-- Python exception kinds raised or caught anywhere in `src/main.py`. -/
inductive PyErr where
  | valueError (msg : String)
  | typeError (msg : String)
  | zeroQuantityError (msg : String)
  | keyError (msg : String)
  | fileNotFoundError (msg : String)
  | jsonDecodeError (msg : String)
  | osError (msg : String)
deriving Repr, DecidableEq

/-- Message carried by an exception (`str(e)` in the source). -/
def PyErr.msg : PyErr → String
  | .valueError m => m
  | .typeError m => m
  | .zeroQuantityError m => m
  | .keyError m => m
  | .fileNotFoundError m => m
  | .jsonDecodeError m => m
  | .osError m => m

def exceptDecEq {e a : Type} [DecidableEq e] [DecidableEq a] :
    (x y : Except e a) → Decidable (x = y)
  | .error ex, .error ey =>
    if h : ex = ey then .isTrue (by rw [h])
    else .isFalse (by intro hh; injection hh; contradiction)
  | .error _, .ok _ => .isFalse (by intro h; cases h)
  | .ok _, .error _ => .isFalse (by intro h; cases h)
  | .ok x, .ok y =>
    if h : x = y then .isTrue (by rw [h])
    else .isFalse (by intro hh; injection hh; contradiction)

instance {e a : Type} [DecidableEq e] [DecidableEq a] : DecidableEq (Except e a) :=
  exceptDecEq

/-- Python `str.strip()`: removes leading and trailing whitespace.  Defined
structurally over the character list so that it evaluates by `decide`. -/
def pyStrip (s : String) : String :=
  String.mk (((s.data.dropWhile Char.isWhitespace).reverse.dropWhile
    Char.isWhitespace).reverse)

/-- Default message of `ZeroQuantityError` (line 9 of the source). -/
def zeroQuantityMsg : String := "Товар с нулевым количеством не может быть добавлен"

/-- Concrete product classes: `Product` and its subclasses `Smartphone` and
`LawnGrass`.  `__add__` compares `type(self)` with `type(other)`, which this
tag models.  The presentation-only extra attributes of the subclasses
(`efficiency`, `model`, `memory`, `color`, `country`, `germination_period`)
are read only by `__repr__` and are omitted. -/
inductive PType where
  | product
  | smartphone
  | lawnGrass
deriving Repr, DecidableEq

/-- A constructed `Product` instance.  `oid` models Python object identity;
`price` is the private `_Product__price` slot. -/
structure Product where
  oid : Nat
  ptype : PType
  name : String
  description : String
  price : Rat
  quantity : Int
deriving Repr, DecidableEq

/-- Python values that can be passed to the embedded functions: the argument
universe for `isinstance`-style dynamic checks. -/
inductive PyObj where
  | str (s : String)
  | int (n : Int)
  | float (q : Rat)
  | noneObj
  | list (l : List PyObj)
  | prod (p : Product)

/-- Numeric value of a Python `int` or `float` object (used after the
`isinstance(price, (int, float))` check; `float(price)`). -/
def PyObj.floatVal : PyObj → Rat
  | .int n => (n : Rat)
  | .float q => q
  | _ => 0

/-- The `Product.__init__` validation chain (source lines 43-62), performed in
source order.  `cls` is the concrete class being constructed (`Smartphone` and
`LawnGrass` call this very code via `super().__init__`).  `oid` is the fresh
identity of the new object. -/
def Product.init (oid : Nat) (cls : PType)
    (name description price quantity : PyObj) : Except PyErr Product :=
  match name with
  | .str ns =>
    if pyStrip ns = "" then
      .error (.valueError "Название товара должно быть непустой строкой")
    else
      match description with
      | .str ds =>
        match price with
        | .int _ | .float _ =>
          match quantity with
          | .int q =>
            if price.floatVal < 0 then
              .error (.valueError "Цена не может быть отрицательной")
            else if q ≤ 0 then
              .error (.zeroQuantityError zeroQuantityMsg)
            else
              .ok ⟨oid, cls, pyStrip ns, ds, price.floatVal, q⟩
          | _ => .error (.valueError "Количество должно быть целым числом")
        | _ => .error (.valueError "Цена должна быть числом")
      | _ => .error (.valueError "Описание должно быть строкой")
  | _ => .error (.valueError "Название товара должно быть непустой строкой")

/-- The guard `hasattr(self, "__price")` in the price setter (source line 74).
Inside the class body the assignment `self.__price = ...` is name-mangled by
Python to `self._Product__price`, so no `Product` instance ever carries an
attribute literally named `"__price"`: the guard is `False` for every
instance, and the confirmation branch below it is dead code. -/
def hasattrDunderPrice (_p : Product) : Bool := false

/-- The `price` setter (source lines 68-82).  `answer` is the reply the
external confirmation collaborator (`input`) would give if consulted.
Returns the updated product, whether the collaborator was consulted, and the
diagnostics printed. -/
def Product.setPrice (p : Product) (newPrice : Rat) (answer : String) :
    Product × Bool × List String :=
  if newPrice ≤ 0 then
    (p, false, ["Цена не должна быть нулевая или отрицательная"])
  else if hasattrDunderPrice p ∧ newPrice < p.price then
    if answer.toLower ≠ "y" then
      (p, true, ["Изменение цены отменено"])
    else
      ({ p with price := newPrice }, true, [])
  else
    ({ p with price := newPrice }, false, [])

/-- The method `Product.__add__` (source lines 84-88): exact-type check, then
`self.price * self.quantity + other.price * other.quantity`. -/
def Product.add (a : Product) (other : PyObj) : Except PyErr Rat :=
  match other with
  | .prod b =>
    if a.ptype = b.ptype then
      .ok (a.price * (a.quantity : Rat) + b.price * (b.quantity : Rat))
    else
      .error (.typeError "Можно складывать только объекты одного класса")
  | _ => .error (.typeError "Можно складывать только объекты одного класса")

/-- The `new_product` factory input: the `product_data` mapping restricted to
the four keys the source inspects (`field in product_data` and
`product_data[field]`); an absent key is `none`. -/
structure PDict where
  name : Option PyObj
  description : Option PyObj
  price : Option PyObj
  quantity : Option PyObj

/-- The duplicate-merge scan of `new_product` (source lines 119-125): walk the
existing list, and at the *first* product whose `name` equals the new one,
add the new quantity and, when the existing price is lower, assign the new
price through the guarded setter; return the mutated element and the list as
it stands afterwards.  The setter is invoked only with a strictly larger new
price, so its confirmation path is not involved and the collaborator answer
is immaterial (passed as `""`). -/
def mergeScan (p : Product) : List Product → Option (Product × List Product)
  | [] => Option.none
  | x :: xs =>
    if x.name = p.name then
      let x1 := { x with quantity := x.quantity + p.quantity }
      let x2 := if x1.price < p.price then (Product.setPrice x1 p.price "").1 else x1
      some (x2, x2 :: xs)
    else
      (mergeScan p xs).map (fun r => (r.1, x :: r.2))

/-- The factory `Product.new_product` (source lines 100-126).  Returns the Python return
value (or the propagated exception) together with the caller's
`products_list` as it stands after the call — the source mutates that list's
elements in place, and only after the new product was validated and
constructed.  `some l` with `l = []` is Python's falsy empty list, which
skips the merge scan just like `None`. -/
def Product.newProduct (oid : Nat) (cls : PType) (data : PDict)
    (productsList : Option (List Product)) :
    Except PyErr Product × Option (List Product) :=
  match data.name, data.description, data.price, data.quantity with
  | some nv, some dv, some prv, some qv =>
    match Product.init oid cls nv dv prv qv with
    | .error e => (.error e, productsList)
    | .ok p =>
      match productsList with
      | some l =>
        if l = [] then (.ok p, some l)
        else
          match mergeScan p l with
          | some r => (.ok r.1, some r.2)
          | Option.none => (.ok p, some l)
      | Option.none => (.ok p, Option.none)
  | _, _, _, _ =>
    (.error (.valueError "Отсутствуют обязательные поля в данных продукта"),
     productsList)

/-- A `Category` instance: `products` is the owned `_products` list (a copy of
the constructor argument, source line 182) and `isActive` the `_is_active`
flag. -/
structure Cat where
  name : String
  description : String
  products : List Product
  isActive : Bool
deriving Repr, DecidableEq

/-- Extraction behind `all(isinstance(p, Product) for p in products)`: the
element list when every element is a `Product`, `none` otherwise. -/
def asProducts : List PyObj → Option (List Product)
  | [] => some []
  | .prod p :: t => (asProducts t).map (fun l => p :: l)
  | _ :: _ => Option.none

/-- The validation and attribute-setting part of `Category.__init__` (source
lines 157-183), without the counter updates. -/
def Cat.init (name description products : PyObj) : Except PyErr Cat :=
  match name with
  | .str ns =>
    if pyStrip ns = "" then
      .error (.valueError "Название категории должно быть непустой строкой")
    else
      match description with
      | .str ds =>
        if pyStrip ds = "" then
          .error (.valueError "Описание категории должно быть непустой строкой")
        else
          match products with
          | .list l =>
            match asProducts l with
            | some ps => .ok ⟨pyStrip ns, pyStrip ds, ps, true⟩
            | Option.none =>
              .error (.valueError "Все элементы списка должны быть объектами Product")
          | _ => .error (.valueError "Продукты должны быть списком")
      | _ => .error (.valueError "Описание категории должно быть непустой строкой")
  | _ => .error (.valueError "Название категории должно быть непустой строкой")

/-- The process-wide picture: every `Category` instance constructed so far (in
construction order) together with the class-level counters
`Category.category_count` and `Category.product_count`. -/
structure CatState where
  cats : List Cat
  categoryCount : Int
  productCount : Int
deriving Repr, DecidableEq

/-- State at interpreter start: no instances, both counters zero. -/
def initState : CatState := ⟨[], 0, 0⟩

/-- Full `Category.__init__` (source lines 157-187): validation, then
`Category.category_count += 1` and `Category.product_count += len(products)`.
On success also returns the index of the new instance. -/
def categoryInit (s : CatState) (name description products : PyObj) :
    Except PyErr (CatState × Nat) :=
  match Cat.init name description products with
  | .error e => .error e
  | .ok c =>
    .ok (⟨s.cats ++ [c], s.categoryCount + 1,
          s.productCount + (c.products.length : Int)⟩, s.cats.length)

/-- Python `product in self._products`: membership through the default
(identity-based) equality — `Product` defines no `__eq__`. -/
def pyMem (p : Product) (l : List Product) : Bool :=
  l.any (fun q => q.oid = p.oid)

/-- Terminal diagnostic printed by the `finally` block of `add_product`. -/
def addDoneMsg : String := "🔹 Обработка добавления товара завершена"

/-- The method `Category.add_product` (source lines 228-260).  Every exception the body
can raise (`TypeError`, `ValueError`, `ZeroQuantityError`) is caught by the
handlers, so the call always returns normally: the model is a total function
returning the updated category, the updated `Category.product_count`, and the
diagnostics printed (the `finally` message last on every path). -/
def addProduct (c : Cat) (productCount : Int) (arg : PyObj) :
    Cat × Int × List String :=
  match arg with
  | .prod p =>
    if pyMem p c.products then
      (c, productCount, ["❌ Ошибка: Товар уже есть в категории", addDoneMsg])
    else if p.quantity = 0 then
      (c, productCount, ["❌ Ошибка: " ++ zeroQuantityMsg, addDoneMsg])
    else
      ({ c with products := c.products ++ [p] }, productCount + 1,
       ["✅ Товар " ++ p.name ++ " успешно добавлен", addDoneMsg])
  | _ =>
    (c, productCount, ["❌ Ошибка типа: Можно добавлять только объекты Product", addDoneMsg])

/-- The method `Category.remove_category` (source lines 213-226) acting on one instance
and the two class counters: fails when already inactive, otherwise decrements
the counters by this category's totals, clears the owned list, flips the flag
and returns `True`. -/
def removeCategory (c : Cat) (categoryCount productCount : Int) :
    Except PyErr (Cat × Int × Int) :=
  if c.isActive = false then
    .error (.valueError "Категория уже удалена")
  else
    .ok ({ c with products := [], isActive := false },
         categoryCount - 1, productCount - (c.products.length : Int))

/-- The method `add_product` lifted to the process-wide state, acting on the instance at
index `i`. -/
def stateAddProduct (s : CatState) (i : Nat) (h : i < s.cats.length)
    (arg : PyObj) : CatState :=
  ⟨s.cats.set i (addProduct (s.cats.get ⟨i, h⟩) s.productCount arg).1,
   s.categoryCount,
   (addProduct (s.cats.get ⟨i, h⟩) s.productCount arg).2.1⟩

/-- The method `remove_category` lifted to the process-wide state: the Python return
value (or exception) and the state after the call (unchanged when the call
raises, since the guard fires before any mutation). -/
def stateRemoveCategory (s : CatState) (i : Nat) (h : i < s.cats.length) :
    Except PyErr Bool × CatState :=
  match removeCategory (s.cats.get ⟨i, h⟩) s.categoryCount s.productCount with
  | .ok r => (.ok true, ⟨s.cats.set i r.1, r.2.1, r.2.2⟩)
  | .error e => (.error e, s)

/-- Number of `Category` instances whose active flag is `true`. -/
def activeCount : List Cat → Int
  | [] => 0
  | c :: t => (if c.isActive then 1 else 0) + activeCount t

/-- Sum of `len(products)` over the active `Category` instances. -/
def activeProdSum : List Cat → Int
  | [] => 0
  | c :: t => (if c.isActive then (c.products.length : Int) else 0) + activeProdSum t

/-- The counter invariant of the specification: `category_count` equals the
number of active categories and `product_count` the sum of their product list
lengths. -/
def CounterInv (s : CatState) : Prop :=
  s.categoryCount = activeCount s.cats ∧ s.productCount = activeProdSum s.cats

instance (s : CatState) : Decidable (CounterInv s) := by
  unfold CounterInv; infer_instance

/-- One mutation of the process-wide state through the operations the
specification allows: `Category` construction (successful or failed),
`add_product`, and `remove_category` (successful or failed; the failed calls
leave the state unchanged). -/
inductive Step : CatState → CatState → Prop where
  | newCategory {s s' : CatState} {i : Nat} (name description products : PyObj)
      (h : categoryInit s name description products = .ok (s', i)) : Step s s'
  | newCategoryFailed {s : CatState} (name description products : PyObj)
      (e : PyErr) (h : categoryInit s name description products = .error e) :
      Step s s
  | addProduct {s : CatState} (i : Nat) (h : i < s.cats.length) (arg : PyObj) :
      Step s (stateAddProduct s i h arg)
  | removeCategory {s : CatState} (i : Nat) (h : i < s.cats.length) :
      Step s (stateRemoveCategory s i h).2

/-- States reachable from interpreter start through `Step`. -/
def Reachable (s : CatState) : Prop :=
  Relation.ReflTransGen Step initState s

/-- Same as `Step`, except that `add_product` is only invoked on categories
whose active flag is true (the restriction the counterexample to claim C2
forces). -/
inductive StepA : CatState → CatState → Prop where
  | newCategory {s s' : CatState} {i : Nat} (name description products : PyObj)
      (h : categoryInit s name description products = .ok (s', i)) : StepA s s'
  | newCategoryFailed {s : CatState} (name description products : PyObj)
      (e : PyErr) (h : categoryInit s name description products = .error e) :
      StepA s s
  | addProduct {s : CatState} (i : Nat) (h : i < s.cats.length) (arg : PyObj)
      (hact : (s.cats.get ⟨i, h⟩).isActive = true) :
      StepA s (stateAddProduct s i h arg)
  | removeCategory {s : CatState} (i : Nat) (h : i < s.cats.length) :
      StepA s (stateRemoveCategory s i h).2

/-- States reachable when `add_product` is only ever applied to active
categories. -/
def ReachableA (s : CatState) : Prop :=
  Relation.ReflTransGen StepA initState s

/-- An `Order` instance.  The source keeps a shared reference to the
`Product`; only the snapshot captured in `total_price` is relevant to the
claims, so the referenced object is stored by value as of construction
time. -/
structure Order where
  name : PyObj
  description : PyObj
  product : Product
  quantity : Int
  totalPrice : Rat

/-- The constructor `Order.__init__` (source lines 422-431): `isinstance(product, Product)`
check first, then `quantity <= 0` check, then
`self.total_price = product.price * quantity` — computed once and stored. -/
def Order.init (name description : PyObj) (product : PyObj) (quantity : Int) :
    Except PyErr Order :=
  match product with
  | .prod p =>
    if quantity ≤ 0 then
      .error (.valueError "Количество должно быть положительным")
    else
      .ok ⟨name, description, p, quantity, p.price * (quantity : Rat)⟩
  | _ => .error (.typeError "Товар должен быть объектом Product")

/-- A parsed JSON document as `json.load` returns it (`dict`s as key/value
lists, numbers split into `int` and non-integral `float`). -/
inductive Json where
  | null
  | bool (b : Bool)
  | int (n : Int)
  | num (q : Rat)
  | str (s : String)
  | arr (l : List Json)
  | obj (fields : List (String × Json))

/-- Python `str()` of a JSON value.  Only emptiness of the result is ever
observable through the claims (`Category` rejects names that are empty after
stripping), so container rendering is abbreviated. -/
def pyStr : Json → String
  | .null => "None"
  | .bool true => "True"
  | .bool false => "False"
  | .int n => toString n
  | .num q => toString q.num ++ "." ++ toString q.den
  | .str s => s
  | .arr _ => "[...]"
  | .obj _ => "..."

/-- Digit run of a decimal literal. -/
def parseDigits : List Char → Option Nat
  | [] => Option.none
  | ds =>
    ds.foldl
      (fun acc c =>
        match acc with
        | some n => if c.isDigit then some (n * 10 + (c.toNat - 48)) else Option.none
        | Option.none => Option.none)
      (some 0)

/-- Python `int(str)`: optional sign plus digits, surrounding whitespace
allowed.  (CPython accepts a few more spellings — underscores, unicode
digits — but only the success/failure split is ever observable through the
claims.) -/
def pyParseInt? (s : String) : Option Int :=
  match (pyStrip s).data with
  | '-' :: ds => (parseDigits ds).map (fun n => -(n : Int))
  | '+' :: ds => (parseDigits ds).map (fun n => (n : Int))
  | ds => (parseDigits ds).map (fun n => (n : Int))

/-- Python `float(str)`, likewise up to the exact accepted spellings. -/
def pyParseFloat? (s : String) : Option Rat :=
  (pyParseInt? s).map (fun n => (n : Rat))

/-- Python `float(x)` on a JSON value (`bool` is an `int` subclass in
Python). -/
def pyFloatFn : Json → Except PyErr Rat
  | .int n => .ok (n : Rat)
  | .num q => .ok q
  | .bool b => .ok (if b then 1 else 0)
  | .str s =>
    match pyParseFloat? s with
    | some q => .ok q
    | Option.none =>
      .error (.valueError ("could not convert string to float: " ++ s))
  | .null => .error (.typeError "float() argument must be a string or a real number, not NoneType")
  | .arr _ => .error (.typeError "float() argument must be a string or a real number, not list")
  | .obj _ => .error (.typeError "float() argument must be a string or a real number, not dict")

/-- Python `int(x)` on a JSON value; `int` of a float truncates toward
zero. -/
def pyIntFn : Json → Except PyErr Int
  | .int n => .ok n
  | .num q => .ok (q.num / q.den)
  | .bool b => .ok (if b then 1 else 0)
  | .str s =>
    match pyParseInt? s with
    | some n => .ok n
    | Option.none =>
      .error (.valueError ("invalid literal for int() with base 10: " ++ s))
  | .null => .error (.typeError "int() argument must be a string or a number, not NoneType")
  | .arr _ => .error (.typeError "int() argument must be a string or a number, not list")
  | .obj _ => .error (.typeError "int() argument must be a string or a number, not dict")

/-- Python subscript `value[key]` with a string key: `KeyError` on a mapping
without the key, `TypeError` on every non-mapping. -/
def jsonGet (j : Json) (k : String) : Except PyErr Json :=
  match j with
  | .obj fields =>
    match fields.lookup k with
    | some v => .ok v
    | Option.none => .error (.keyError k)
  | _ => .error (.typeError "value is not subscriptable by string")

/-- One iteration of the product loop of `load_data_from_json` (source lines
338-349): four subscripts and coercions in keyword order, the `Product`
constructor, and the handler that re-raises `ValueError`/`TypeError`/
`KeyError` as `ValueError("Ошибка в данных товара: ...")`.  A
`ZeroQuantityError` from the constructor matches none of those clauses and
passes through. -/
def loadOneProduct (oid : Nat) (pd : Json) : Except PyErr Product :=
  let r : Except PyErr Product := do
    let nv ← jsonGet pd "name"
    let dv ← jsonGet pd "description"
    let prv ← jsonGet pd "price"
    let pr ← pyFloatFn prv
    let qv ← jsonGet pd "quantity"
    let q ← pyIntFn qv
    Product.init oid .product (.str (pyStr nv)) (.str (pyStr dv)) (.float pr) (.int q)
  match r with
  | .ok p => .ok p
  | .error (.valueError m) => .error (.valueError ("Ошибка в данных товара: " ++ m))
  | .error (.typeError m) => .error (.valueError ("Ошибка в данных товара: " ++ m))
  | .error (.keyError m) => .error (.valueError ("Ошибка в данных товара: " ++ m))
  | .error e => .error e

/-- The product loop, threading fresh object identities. -/
def loadProducts (oid : Nat) : List Json → Except PyErr (List Product)
  | [] => .ok []
  | pd :: rest => do
    let p ← loadOneProduct oid pd
    let ps ← loadProducts (oid + 1) rest
    .ok (p :: ps)

/-- One iteration of the category loop (source lines 321-362): mapping check,
required-field check, products-list check, product loop, then the `Category`
constructor whose `ValueError` is re-wrapped with the category-level
prefix. -/
def loadOneCategory (oid : Nat) (cd : Json) : Except PyErr Cat :=
  match cd with
  | .obj fields =>
    let missing := ["description", "name", "products"].filter
      (fun k => (fields.lookup k).isNone)
    if missing ≠ [] then
      .error (.valueError ("Отсутствуют поля: " ++ String.intercalate ", " missing))
    else
      match fields.lookup "products" with
      | some (.arr pds) =>
        match loadProducts oid pds with
        | .error e => .error e
        | .ok ps =>
          let nameStr := pyStr ((fields.lookup "name").getD .null)
          let descStr := pyStr ((fields.lookup "description").getD .null)
          match Cat.init (.str nameStr) (.str descStr) (.list (ps.map .prod)) with
          | .ok c => .ok c
          | .error e =>
            .error (.valueError ("Ошибка создания категории: " ++ e.msg))
      | _ => .error (.valueError "Продукты должны быть списком")
  | _ => .error (.valueError "Категория должна быть объектом")

/-- The category loop.  (The `CatalogCounters` side effect of each
construction is modelled by `categoryInit`; no claim about the loader
concerns the counters, so the loop is stated over the validation core.) -/
def loadCategories (oid : Nat) : List Json → Except PyErr (List Cat)
  | [] => .ok []
  | cd :: rest => do
    let c ← loadOneCategory oid cd
    let cs ← loadCategories (oid + c.products.length) rest
    .ok (c :: cs)

/-- Outcome of opening, reading and JSON-decoding the file — the external
world of `load_data_from_json`. -/
inductive ReadResult where
  | notFound (msg : String)
  | ioError (msg : String)
  | decodeError (msg : String)
  | content (j : Json)

/-- The loader `load_data_from_json` (source lines 285-371): filename validation outside
the `try`; inside it the read, the decode, the root check and both loops; and
the three `except` clauses — `FileNotFoundError` and `json.JSONDecodeError`
wrapped with their dedicated prefixes, every other exception (including the
`ValueError`s raised by the loops themselves) wrapped by the final
`except Exception` clause.  Every failure therefore leaves as a
`ValueError` carrying the cause's message. -/
def readAndParse (file : ReadResult) : Except PyErr (List Cat) :=
  match file with
  | .notFound m => .error (.fileNotFoundError m)
  | .ioError m => .error (.osError m)
  | .decodeError m => .error (.jsonDecodeError m)
  | .content j =>
    match j with
    | .arr cds => loadCategories 0 cds
    | _ => .error (.valueError "Ожидается список категорий")

/-- The three `except` clauses at the bottom of `load_data_from_json`:
`FileNotFoundError` and `json.JSONDecodeError` get their dedicated prefixes;
every other exception escaping the `try` body — the re-raised `ValueError`s
of the loops included — is caught by `except Exception` and wrapped with the
processing prefix. -/
def wrapOuter (r : Except PyErr (List Cat)) : Except PyErr (List Cat) :=
  match r with
  | .ok cats => .ok cats
  | .error (.fileNotFoundError m) => .error (.valueError ("Файл не найден: " ++ m))
  | .error (.jsonDecodeError m) => .error (.valueError ("Ошибка JSON: " ++ m))
  | .error e => .error (.valueError ("Ошибка обработки файла: " ++ e.msg))

def loadDataFromJson (filename : PyObj) (file : ReadResult) :
    Except PyErr (List Cat) :=
  match filename with
  | .str s =>
    if pyStrip s = "" then
      .error (.valueError "Имя файла должно быть непустой строкой")
    else
      wrapOuter (readAndParse file)
  | _ => .error (.valueError "Имя файла должно быть непустой строкой")

/-- Construction of a batch of `Product`s (no `Category` involved): pure
validation, with fresh identities threaded through.  Constructing products
touches no counter — `CatalogCounters` lives on `Category` alone. -/
def constructProducts (oid : Nat) :
    List (PyObj × PyObj × PyObj × PyObj) → Except PyErr (List Product)
  | [] => .ok []
  | d :: rest => do
    let p ← Product.init oid .product d.1 d.2.1 d.2.2.1 d.2.2.2
    let ps ← constructProducts (oid + 1) rest
    .ok (p :: ps)

lemma setPrice_pos (p : Product) (np : Rat) (a : String) (h : 0 < np) :
    Product.setPrice p np a = ({ p with price := np }, false, []) := by
  unfold Product.setPrice
  rw [if_neg (not_le.mpr h)]
  simp [hasattrDunderPrice]

/-- Claim C1, code-level behaviour: for every strictly positive new price —
reductions included — the guarded setter installs the new price immediately
and never consults the confirmation collaborator (second component `false`),
because the `hasattr(self, "__price")` guard can never hold (name
mangling). -/
theorem c1_reduction_without_confirmation (p : Product) (np : Rat) (a : String)
    (h : 0 < np) :
    Product.setPrice p np a = ({ p with price := np }, false, []) :=
  setPrice_pos p np a h

theorem c1_reduction_without_confirmation_witness :
    0 < (50 : Rat) ∧
      Product.setPrice ⟨0, .product, "TV", "4K", 100, 5⟩ 50 "n" =
        (⟨0, .product, "TV", "4K", 50, 5⟩, false, []) :=
  ⟨by norm_num,
   c1_reduction_without_confirmation ⟨0, .product, "TV", "4K", 100, 5⟩ 50 "n"
     (by norm_num)⟩

/-- Claim C9: addition of two products is defined exactly between instances of
the same concrete variant and yields
`price_a*quantity_a + price_b*quantity_b`; a differing concrete type — or a
non-`Product` right operand — fails with the type-mismatch error. -/
theorem c9_product_addition :
    (∀ a b : Product, a.ptype = b.ptype →
      Product.add a (.prod b) =
        .ok (a.price * (a.quantity : Rat) + b.price * (b.quantity : Rat)))
    ∧ (∀ a b : Product, a.ptype ≠ b.ptype →
      Product.add a (.prod b) =
        .error (.typeError "Можно складывать только объекты одного класса"))
    ∧ (∀ (a : Product) (v : PyObj), (∀ b : Product, v ≠ .prod b) →
      Product.add a v =
        .error (.typeError "Можно складывать только объекты одного класса")) := by
  refine ⟨fun a b h => ?_, fun a b h => ?_, fun a v h => ?_⟩
  · simp [Product.add, h]
  · simp [Product.add, h]
  · cases v with
    | prod b => exact absurd rfl (h b)
    | str s => rfl
    | int n => rfl
    | float q => rfl
    | noneObj => rfl
    | list l => rfl

theorem c9_product_addition_witness :
    (Product.add ⟨1, .smartphone, "P1", "D1", 100, 2⟩
        (.prod ⟨2, .smartphone, "P2", "D2", 200, 3⟩) = .ok 800)
    ∧ (Product.add ⟨1, .smartphone, "P1", "D1", 100, 2⟩
        (.prod ⟨3, .lawnGrass, "G1", "D2", 50, 5⟩) =
          .error (.typeError "Можно складывать только объекты одного класса"))
    ∧ (Product.add ⟨1, .smartphone, "P1", "D1", 100, 2⟩
        (.prod ⟨4, .product, "P", "D", 10, 1⟩) =
          .error (.typeError "Можно складывать только объекты одного класса")) := by
  refine ⟨?_, ?_, ?_⟩
  · have h := c9_product_addition.1 ⟨1, .smartphone, "P1", "D1", 100, 2⟩
      ⟨2, .smartphone, "P2", "D2", 200, 3⟩ (by decide)
    rw [h]; norm_num
  · exact c9_product_addition.2.1 ⟨1, .smartphone, "P1", "D1", 100, 2⟩
      ⟨3, .lawnGrass, "G1", "D2", 50, 5⟩ (by decide)
  · exact c9_product_addition.2.1 ⟨1, .smartphone, "P1", "D1", 100, 2⟩
      ⟨4, .product, "P", "D", 10, 1⟩ (by decide)

/-- Claim C10: `new_product` validates and constructs before any merge, so
when construction fails (missing required field, or any constructor
rejection: wrong field type, negative price, non-positive quantity) the error
propagates and the supplied existing-products list is returned exactly as it
was — no element was touched. -/
theorem c10_new_product_atomic :
    (∀ (oid : Nat) (cls : PType) (nv dv prv qv : PyObj)
        (plist : Option (List Product)) (e : PyErr),
      Product.init oid cls nv dv prv qv = .error e →
      Product.newProduct oid cls ⟨some nv, some dv, some prv, some qv⟩ plist =
        (.error e, plist))
    ∧ (∀ (oid : Nat) (cls : PType) (data : PDict) (plist : Option (List Product)),
      data.name = Option.none ∨ data.description = Option.none ∨
        data.price = Option.none ∨ data.quantity = Option.none →
      Product.newProduct oid cls data plist =
        (.error (.valueError "Отсутствуют обязательные поля в данных продукта"),
         plist)) := by
  constructor
  · intro oid cls nv dv prv qv plist e h
    simp [Product.newProduct, h]
  · intro oid cls data plist h
    obtain ⟨n, d, pr, q⟩ := data
    rcases h with h | h | h | h <;> simp_all [Product.newProduct]

theorem c10_new_product_atomic_witness :
    Product.init 0 .product (.str "A") (.str "D") (.int (-5)) (.int 1) =
        .error (.valueError "Цена не может быть отрицательной")
    ∧ Product.newProduct 0 .product
        ⟨some (.str "A"), some (.str "D"), some (.int (-5)), some (.int 1)⟩
        (some [⟨7, .product, "A", "old", 100, 5⟩]) =
      (.error (.valueError "Цена не может быть отрицательной"),
       some [⟨7, .product, "A", "old", 100, 5⟩]) := by
  refine ⟨by decide, ?_⟩
  exact c10_new_product_atomic.1 0 .product (.str "A") (.str "D") (.int (-5))
    (.int 1) (some [⟨7, .product, "A", "old", 100, 5⟩]) _ (by decide)

end EcommerceHW

namespace EcommerceHW

lemma rat_coe_pos_of_int_pos {q : Int} (h : 0 < q) : ((q : Rat)) ≠ 0 := by
  exact_mod_cast h.ne.symm

/-- Claim C8: an `Order` over a `Product` and a strictly positive quantity
stores `product.price * quantity` computed at construction time, and that
stored value is not recomputed — after the product's price is changed through
the setter to any different positive value, the stored total differs from
what a recomputation against the updated product would give.  A non-`Product`
argument fails with the type error (checked first), a non-positive quantity
with the value error. -/
theorem c8_order_total_price :
    (∀ (n d : PyObj) (p : Product) (q : Int), 0 < q →
      ∃ o, Order.init n d (.prod p) q = .ok o
        ∧ o.totalPrice = p.price * (q : Rat)
        ∧ ∀ (v : Rat) (a : String), 0 < v → v ≠ p.price →
            o.totalPrice ≠ (Product.setPrice p v a).1.price * (q : Rat))
    ∧ (∀ (n d : PyObj) (p : Product) (q : Int), q ≤ 0 →
      Order.init n d (.prod p) q =
        .error (.valueError "Количество должно быть положительным"))
    ∧ (∀ (n d v : PyObj) (q : Int), (∀ p : Product, v ≠ .prod p) →
      Order.init n d v q =
        .error (.typeError "Товар должен быть объектом Product")) := by
  refine ⟨fun n d p q hq => ?_, fun n d p q hq => ?_, fun n d v q hv => ?_⟩
  · refine ⟨⟨n, d, p, q, p.price * (q : Rat)⟩, ?_, rfl, ?_⟩
    · simp [Order.init, not_le.mpr hq]
    · intro v a hv hne
      rw [setPrice_pos p v a hv]
      intro hcontra
      exact hne (mul_right_cancel₀ (rat_coe_pos_of_int_pos hq) hcontra).symm
  · simp [Order.init, hq]
  · cases v with
    | prod p => exact absurd rfl (hv p)
    | str s => rfl
    | int m => rfl
    | float r => rfl
    | noneObj => rfl
    | list l => rfl

theorem c8_order_total_price_witness :
    0 < (2 : Int) ∧
      ∃ o, Order.init (.str "Заказ") (.str "Тест")
            (.prod ⟨0, .product, "P", "D", 100, 5⟩) 2 = .ok o
        ∧ o.totalPrice = (100 : Rat) * ((2 : Int) : Rat)
        ∧ ∀ (v : Rat) (a : String), 0 < v → v ≠ (100 : Rat) →
            o.totalPrice ≠
              (Product.setPrice ⟨0, .product, "P", "D", 100, 5⟩ v a).1.price *
                ((2 : Int) : Rat) :=
  ⟨by norm_num,
   c8_order_total_price.1 (.str "Заказ") (.str "Тест")
     ⟨0, .product, "P", "D", 100, 5⟩ 2 (by norm_num)⟩

lemma wrapOuter_shape (r : Except PyErr (List Cat)) :
    (∃ cats, wrapOuter r = .ok cats) ∨ (∃ m, wrapOuter r = .error (.valueError m)) := by
  rcases r with e | cats
  · rcases e with m | m | m | m | m | m | m <;> right <;> exact ⟨_, rfl⟩
  · exact Or.inl ⟨cats, rfl⟩

/-- Claim C7: every outcome of `load_data_from_json` is either a success or a
`ValueError` — no raw `FileNotFoundError`, `OSError`, `JSONDecodeError`,
`KeyError` or `TypeError` ever escapes; a missing file produces the
`ValueError` carrying the underlying message; and a well-formed empty
top-level list is a success returning the empty category list. -/
theorem c7_loader_uniform_valueerror :
    (∀ (fn : PyObj) (file : ReadResult),
        (∃ cats, loadDataFromJson fn file = .ok cats)
      ∨ (∃ m, loadDataFromJson fn file = .error (.valueError m)))
    ∧ loadDataFromJson (.str "products.json") (.content (.arr [])) = .ok []
    ∧ (∀ (s m : String), pyStrip s ≠ "" →
        loadDataFromJson (.str s) (.notFound m) =
          .error (.valueError ("Файл не найден: " ++ m))) := by
  refine ⟨fun fn file => ?_, by decide, fun s m hs => ?_⟩
  · cases fn with
    | str s =>
      by_cases hs : pyStrip s = ""
      · refine Or.inr ⟨"Имя файла должно быть непустой строкой", ?_⟩
        simp [loadDataFromJson, hs]
      · have : loadDataFromJson (.str s) file = wrapOuter (readAndParse file) := by
          simp [loadDataFromJson, hs]
        rw [this]
        exact wrapOuter_shape _
    | int n => exact Or.inr ⟨_, rfl⟩
    | float q => exact Or.inr ⟨_, rfl⟩
    | noneObj => exact Or.inr ⟨_, rfl⟩
    | list l => exact Or.inr ⟨_, rfl⟩
    | prod p => exact Or.inr ⟨_, rfl⟩
  · simp [loadDataFromJson, hs, readAndParse, wrapOuter]

theorem c7_loader_uniform_valueerror_witness :
    pyStrip "data.json" ≠ "" ∧
      loadDataFromJson (.str "data.json") (.notFound "no such file") =
        .error (.valueError ("Файл не найден: " ++ "no such file")) :=
  ⟨by decide,
   c7_loader_uniform_valueerror.2.2 "data.json" "no such file" (by decide)⟩

end EcommerceHW

namespace EcommerceHW

lemma init_ok_price_nonneg {oid : Nat} {cls : PType} {nv dv prv qv : PyObj}
    {p : Product} (h : Product.init oid cls nv dv prv qv = .ok p) :
    0 ≤ p.price := by
  unfold Product.init at h
  repeat' split at h
  all_goals try (cases h)
  all_goals rename_i hprice hquant
  all_goals exact not_lt.mp hprice

lemma mergeScan_none (p : Product) (l : List Product)
    (h : ∀ x ∈ l, x.name ≠ p.name) : mergeScan p l = Option.none := by
  induction l with
  | nil => rfl
  | cons a t ih =>
    have ha : a.name ≠ p.name := h a (by simp)
    simp [mergeScan, ha, ih (fun x hx => h x (by simp [hx]))]

lemma mergeScan_first (p old : Product) (l1 l2 : List Product)
    (h1 : ∀ x ∈ l1, x.name ≠ p.name) (hname : old.name = p.name)
    (hold : 0 ≤ old.price) :
    ∃ m, mergeScan p (l1 ++ old :: l2) = some (m, l1 ++ m :: l2)
      ∧ m.oid = old.oid ∧ m.quantity = old.quantity + p.quantity
      ∧ m.price = max old.price p.price
      ∧ m.name = old.name ∧ m.description = old.description
      ∧ m.ptype = old.ptype := by
  induction l1 with
  | nil =>
    by_cases hlt : old.price < p.price
    · have hppos : 0 < p.price := lt_of_le_of_lt hold hlt
      refine ⟨⟨old.oid, old.ptype, old.name, old.description, p.price,
               old.quantity + p.quantity⟩, ?_, rfl, rfl,
              (max_eq_right hlt.le).symm, rfl, rfl, rfl⟩
      rw [List.nil_append, List.nil_append]
      simp only [mergeScan]
      rw [if_pos hname]
      dsimp only
      rw [if_pos hlt, setPrice_pos _ _ _ hppos]
    · refine ⟨⟨old.oid, old.ptype, old.name, old.description, old.price,
               old.quantity + p.quantity⟩, ?_, rfl, rfl,
              (max_eq_left (not_lt.mp hlt)).symm, rfl, rfl, rfl⟩
      rw [List.nil_append, List.nil_append]
      simp only [mergeScan]
      rw [if_pos hname]
      dsimp only
      rw [if_neg hlt]
  | cons a t ih =>
    have ha : a.name ≠ p.name := h1 a (by simp)
    obtain ⟨m, hm, rest⟩ := ih (fun x hx => h1 x (by simp [hx]))
    exact ⟨m, by simp [mergeScan, ha, hm], rest⟩

/-- Claim C5: with a supplied list containing a name match, `new_product`
merges into the *first* match — quantity is the sum, price the maximum of the
two — and returns that existing (mutated) product, the element of the list
itself; with no match, or no list supplied, the freshly constructed product
is returned unmerged and the list untouched. -/
theorem c5_new_product_merges_first_match :
    (∀ (oid : Nat) (nv dv prv qv : PyObj) (p old : Product)
        (l1 l2 : List Product),
      Product.init oid .product nv dv prv qv = .ok p →
      (∀ x ∈ l1, x.name ≠ p.name) →
      old.name = p.name →
      0 ≤ old.price →
      ∃ m,
        Product.newProduct oid .product ⟨some nv, some dv, some prv, some qv⟩
            (some (l1 ++ old :: l2)) = (.ok m, some (l1 ++ m :: l2))
        ∧ m.oid = old.oid ∧ m.quantity = old.quantity + p.quantity
        ∧ m.price = max old.price p.price
        ∧ m.name = old.name ∧ m.description = old.description)
    ∧ (∀ (oid : Nat) (nv dv prv qv : PyObj) (p : Product) (l : List Product),
      Product.init oid .product nv dv prv qv = .ok p →
      (∀ x ∈ l, x.name ≠ p.name) →
      Product.newProduct oid .product ⟨some nv, some dv, some prv, some qv⟩
        (some l) = (.ok p, some l))
    ∧ (∀ (oid : Nat) (nv dv prv qv : PyObj) (p : Product),
      Product.init oid .product nv dv prv qv = .ok p →
      Product.newProduct oid .product ⟨some nv, some dv, some prv, some qv⟩
        Option.none = (.ok p, Option.none)) := by
  refine ⟨fun oid nv dv prv qv p old l1 l2 hinit h1 hname hold => ?_,
          fun oid nv dv prv qv p l hinit hnone => ?_,
          fun oid nv dv prv qv p hinit => ?_⟩
  · obtain ⟨m, hm, hoid, hq, hpr, hn, hd, hpt⟩ :=
      mergeScan_first p old l1 l2 h1 hname hold
    refine ⟨m, ?_, hoid, hq, hpr, hn, hd⟩
    have hne : l1 ++ old :: l2 ≠ [] := by simp
    simp [Product.newProduct, hinit, hne, hm]
  · by_cases hl : l = []
    · subst hl; simp [Product.newProduct, hinit]
    · simp [Product.newProduct, hinit, hl, mergeScan_none p l hnone]
  · simp [Product.newProduct, hinit]

theorem c5_new_product_merges_first_match_witness :
    Product.init 1 .product (.str "Phone") (.str "New") (.int 150) (.int 3) =
        .ok ⟨1, .product, "Phone", "New", 150, 3⟩
    ∧ ∃ m,
        Product.newProduct 1 .product
            ⟨some (.str "Phone"), some (.str "New"), some (.int 150),
             some (.int 3)⟩
            (some ([] ++ (⟨7, .product, "Phone", "Desc", 100, 5⟩ : Product) :: [])) =
          (.ok m, some ([] ++ m :: []))
        ∧ m.oid = 7 ∧ m.quantity = 5 + 3 ∧ m.price = max 100 150
        ∧ m.name = "Phone" ∧ m.description = "Desc" := by
  refine ⟨by decide, ?_⟩
  exact c5_new_product_merges_first_match.1 1 (.str "Phone") (.str "New")
    (.int 150) (.int 3) ⟨1, .product, "Phone", "New", 150, 3⟩
    ⟨7, .product, "Phone", "Desc", 100, 5⟩ [] [] (by decide) (by simp)
    (by decide) (by norm_num)

end EcommerceHW

namespace EcommerceHW

lemma get_set_self {α : Type} (l : List α) (i : Nat) (a : α)
    (h : i < (l.set i a).length) : (l.set i a).get ⟨i, h⟩ = a := by
  induction l generalizing i with
  | nil => simp at h
  | cons x t ih =>
    cases i with
    | zero => rfl
    | succ j => exact ih j (by simpa using h)

lemma constructProducts_length {oid : Nat}
    {ds : List (PyObj × PyObj × PyObj × PyObj)} {ps : List Product}
    (h : constructProducts oid ds = .ok ps) : ps.length = ds.length := by
  induction ds generalizing oid ps with
  | nil => simp [constructProducts] at h; subst h; rfl
  | cons d rest ih =>
    unfold constructProducts at h
    cases hp : Product.init oid .product d.1 d.2.1 d.2.2.1 d.2.2.2 with
    | error e => rw [hp] at h; cases h
    | ok p =>
      rw [hp] at h
      cases hr : constructProducts (oid + 1) rest with
      | error e => rw [hr] at h; cases h
      | ok ps1 =>
        rw [hr] at h
        cases h
        simpa using ih hr

lemma asProducts_map (ps : List Product) : asProducts (ps.map .prod) = some ps := by
  induction ps with
  | nil => rfl
  | cons p t ih => simp [asProducts, ih]

/-- Claim C3: constructing any number of `Product`s changes no counter, and
constructing one `Category` holding `N` of them (valid name and description)
succeeds and increases `product_count` by exactly `N` and `category_count` by
exactly `1`. -/
theorem c3_category_construction_counters :
    ∀ (s : CatState) (oid : Nat) (ds : List (PyObj × PyObj × PyObj × PyObj))
      (ps : List Product) (ns dsc : String),
      constructProducts oid ds = .ok ps →
      pyStrip ns ≠ "" → pyStrip dsc ≠ "" →
      ∃ (s' : CatState) (idx : Nat),
        categoryInit s (.str ns) (.str dsc) (.list (ps.map .prod)) =
          .ok (s', idx)
        ∧ s'.categoryCount = s.categoryCount + 1
        ∧ s'.productCount = s.productCount + (ds.length : Int)
        ∧ s'.cats.length = s.cats.length + 1 := by
  intro s oid ds ps ns dsc hps hns hdsc
  have hlen : ps.length = ds.length := constructProducts_length hps
  have hcat : Cat.init (.str ns) (.str dsc) (.list (ps.map .prod)) =
      .ok ⟨pyStrip ns, pyStrip dsc, ps, true⟩ := by
    simp [Cat.init, hns, hdsc, asProducts_map]
  refine ⟨⟨s.cats ++ [⟨pyStrip ns, pyStrip dsc, ps, true⟩],
          s.categoryCount + 1, s.productCount + (ps.length : Int)⟩,
          s.cats.length, ?_, rfl, ?_, by simp⟩
  · simp [categoryInit, hcat]
  · simp [hlen]

theorem c3_category_construction_counters_witness :
    constructProducts 0 [((.str "P"), (.str "D"), (.int 100), (.int 5))] =
        .ok [⟨0, .product, "P", "D", 100, 5⟩]
    ∧ ∃ (s' : CatState) (idx : Nat),
        categoryInit initState (.str "Смартфоны") (.str "Опис")
            (.list ([(⟨0, .product, "P", "D", 100, 5⟩ : Product)].map .prod)) =
          .ok (s', idx)
        ∧ s'.categoryCount = initState.categoryCount + 1
        ∧ s'.productCount = initState.productCount +
            (([((.str "P" : PyObj), (.str "D" : PyObj), (.int 100 : PyObj),
                (.int 5 : PyObj))].length : Int))
        ∧ s'.cats.length = initState.cats.length + 1 := by
  refine ⟨by decide, ?_⟩
  exact c3_category_construction_counters initState 0
    [((.str "P"), (.str "D"), (.int 100), (.int 5))]
    [⟨0, .product, "P", "D", 100, 5⟩] "Смартфоны" "Опис" (by decide)
    (by decide) (by decide)

/-- Claim C4: removing an active category returns `True`, decrements
`category_count` by one and `product_count` by the pre-removal product total,
clears the owned list and marks the instance inactive; the second call on the
same instance raises the state error and leaves both the counters and the
category untouched. -/
theorem c4_remove_category_lifecycle :
    ∀ (s : CatState) (i : Nat) (h : i < s.cats.length),
      (s.cats.get ⟨i, h⟩).isActive = true →
      ∃ (s' : CatState) (h' : i < s'.cats.length),
        stateRemoveCategory s i h = (.ok true, s')
        ∧ s'.categoryCount = s.categoryCount - 1
        ∧ s'.productCount =
            s.productCount - ((s.cats.get ⟨i, h⟩).products.length : Int)
        ∧ (s'.cats.get ⟨i, h'⟩).products = []
        ∧ (s'.cats.get ⟨i, h'⟩).isActive = false
        ∧ stateRemoveCategory s' i h' =
            (.error (.valueError "Категория уже удалена"), s') := by
  intro s i h hact
  have hrm : removeCategory (s.cats.get ⟨i, h⟩) s.categoryCount s.productCount =
      .ok ({ s.cats.get ⟨i, h⟩ with products := [], isActive := false },
           s.categoryCount - 1,
           s.productCount - (((s.cats.get ⟨i, h⟩).products.length : Int))) := by
    unfold removeCategory
    rw [hact]
    simp
  have h' : i < (s.cats.set i
      ({ s.cats.get ⟨i, h⟩ with products := [], isActive := false })).length := by
    simpa using h
  refine ⟨⟨s.cats.set i
      ({ s.cats.get ⟨i, h⟩ with products := [], isActive := false }),
      s.categoryCount - 1,
      s.productCount - (((s.cats.get ⟨i, h⟩).products.length : Int))⟩,
    h', ?_, rfl, rfl, ?_, ?_, ?_⟩
  · unfold stateRemoveCategory
    rw [hrm]
  · rw [get_set_self]
  · rw [get_set_self]
  · unfold stateRemoveCategory
    rw [get_set_self]
    simp [removeCategory]

theorem c4_remove_category_lifecycle_witness :
    ((⟨[⟨"Тест", "Опис", [⟨0, .product, "P", "D", 100, 5⟩], true⟩], 1, 1⟩ :
        CatState).cats.get ⟨0, by decide⟩).isActive = true
    ∧ ∃ (s' : CatState) (h' :
          0 < s'.cats.length),
        stateRemoveCategory
            ⟨[⟨"Тест", "Опис", [⟨0, .product, "P", "D", 100, 5⟩], true⟩], 1, 1⟩
            0 (by decide) = (.ok true, s')
        ∧ s'.categoryCount = 1 - 1
        ∧ s'.productCount = 1 -
            ((((⟨[⟨"Тест", "Опис", [⟨0, .product, "P", "D", 100, 5⟩], true⟩],
                1, 1⟩ : CatState).cats.get ⟨0, by decide⟩).products.length : Int))
        ∧ (s'.cats.get ⟨0, h'⟩).products = []
        ∧ (s'.cats.get ⟨0, h'⟩).isActive = false
        ∧ stateRemoveCategory s' 0 h' =
            (.error (.valueError "Категория уже удалена"), s') := by
  refine ⟨by decide, ?_⟩
  exact c4_remove_category_lifecycle
    ⟨[⟨"Тест", "Опис", [⟨0, .product, "P", "D", 100, 5⟩], true⟩], 1, 1⟩
    0 (by decide) (by decide)

end EcommerceHW

namespace EcommerceHW

/-- Claim C6: `add_product` always returns normally — its body's exceptions
are all caught — and always ends its diagnostics with the terminal message;
it appends the argument and bumps `product_count` by exactly one precisely
when the argument is a `Product` that is not already present (by identity)
and has nonzero quantity; in every other case category and counter are left
unchanged. -/
theorem c6_add_product_always_completes :
    ∀ (c : Cat) (pc : Int) (arg : PyObj),
      ((addProduct c pc arg).2.2.getLast? = some addDoneMsg)
      ∧ (∀ p : Product, arg = .prod p → pyMem p c.products = false →
          p.quantity ≠ 0 →
          (addProduct c pc arg).1 = { c with products := c.products ++ [p] }
          ∧ (addProduct c pc arg).2.1 = pc + 1)
      ∧ (∀ p : Product, arg = .prod p →
          (pyMem p c.products = true ∨ p.quantity = 0) →
          (addProduct c pc arg).1 = c ∧ (addProduct c pc arg).2.1 = pc)
      ∧ ((∀ p : Product, arg ≠ .prod p) →
          (addProduct c pc arg).1 = c ∧ (addProduct c pc arg).2.1 = pc) := by
  intro c pc arg
  refine ⟨?_, ?_, ?_, ?_⟩
  · cases arg with
    | prod p =>
      by_cases hm : pyMem p c.products
      · simp [addProduct, hm]
      · by_cases hq : p.quantity = 0
        · simp [addProduct, hm, hq]
        · simp [addProduct, hm, hq]
    | str s => rfl
    | int n => rfl
    | float q => rfl
    | noneObj => rfl
    | list l => rfl
  · intro p harg hm hq
    subst harg
    simp [addProduct, hm, hq]
  · intro p harg hmq
    subst harg
    rcases hmq with hm | hq
    · simp [addProduct, hm]
    · by_cases hm : pyMem p c.products
      · simp [addProduct, hm]
      · simp [addProduct, hm, hq]
  · intro hnp
    cases arg with
    | prod p => exact absurd rfl (hnp p)
    | str s => exact ⟨rfl, rfl⟩
    | int n => exact ⟨rfl, rfl⟩
    | float q => exact ⟨rfl, rfl⟩
    | noneObj => exact ⟨rfl, rfl⟩
    | list l => exact ⟨rfl, rfl⟩

theorem c6_add_product_always_completes_witness :
    ((addProduct ⟨"Кат", "Опис", [], true⟩ 0
        (.prod ⟨3, .product, "Новый", "D", 50, 1⟩)).2.2.getLast? =
      some addDoneMsg)
    ∧ ((addProduct ⟨"Кат", "Опис", [], true⟩ 0
          (.prod ⟨3, .product, "Новый", "D", 50, 1⟩)).1 =
        { (⟨"Кат", "Опис", [], true⟩ : Cat) with
            products := [] ++ [⟨3, .product, "Новый", "D", 50, 1⟩] }
      ∧ (addProduct ⟨"Кат", "Опис", [], true⟩ 0
          (.prod ⟨3, .product, "Новый", "D", 50, 1⟩)).2.1 = 0 + 1) := by
  refine ⟨(c6_add_product_always_completes ⟨"Кат", "Опис", [], true⟩ 0
    (.prod ⟨3, .product, "Новый", "D", 50, 1⟩)).1, ?_⟩
  exact (c6_add_product_always_completes ⟨"Кат", "Опис", [], true⟩ 0
    (.prod ⟨3, .product, "Новый", "D", 50, 1⟩)).2.1
    ⟨3, .product, "Новый", "D", 50, 1⟩ rfl (by decide) (by decide)

end EcommerceHW

namespace EcommerceHW

lemma activeCount_append (l1 l2 : List Cat) :
    activeCount (l1 ++ l2) = activeCount l1 + activeCount l2 := by
  induction l1 with
  | nil => simp [activeCount]
  | cons x t ih => simp [activeCount, ih]; ring

lemma activeProdSum_append (l1 l2 : List Cat) :
    activeProdSum (l1 ++ l2) = activeProdSum l1 + activeProdSum l2 := by
  induction l1 with
  | nil => simp [activeProdSum]
  | cons x t ih => simp [activeProdSum, ih]; ring

lemma activeCount_set (l : List Cat) (i : Nat) (c : Cat) (h : i < l.length) :
    activeCount (l.set i c) =
      activeCount l - (if (l.get ⟨i, h⟩).isActive then 1 else 0)
        + (if c.isActive then 1 else 0) := by
  induction l generalizing i with
  | nil => simp at h
  | cons x t ih =>
    cases i with
    | zero =>
      show activeCount (c :: t) = _
      have h0 : (x :: t).get ⟨0, h⟩ = x := rfl
      rw [h0]
      show (if c.isActive then (1:Int) else 0) + activeCount t = _
      show _ = ((if x.isActive then (1:Int) else 0) + activeCount t) - _ + _
      ring
    | succ j =>
      have hj : j < t.length := by simpa using h
      show activeCount (x :: t.set j c) = _
      have h0 : (x :: t).get ⟨j + 1, h⟩ = t.get ⟨j, hj⟩ := rfl
      rw [h0]
      show (if x.isActive then (1:Int) else 0) + activeCount (t.set j c) = _
      rw [ih j hj]
      show _ = ((if x.isActive then (1:Int) else 0) + activeCount t) - _ + _
      ring

lemma activeProdSum_set (l : List Cat) (i : Nat) (c : Cat) (h : i < l.length) :
    activeProdSum (l.set i c) =
      activeProdSum l
        - (if (l.get ⟨i, h⟩).isActive then ((l.get ⟨i, h⟩).products.length : Int) else 0)
        + (if c.isActive then (c.products.length : Int) else 0) := by
  induction l generalizing i with
  | nil => simp at h
  | cons x t ih =>
    cases i with
    | zero =>
      show activeProdSum (c :: t) = _
      have h0 : (x :: t).get ⟨0, h⟩ = x := rfl
      rw [h0]
      show (if c.isActive then (c.products.length : Int) else 0) + activeProdSum t = _
      show _ = ((if x.isActive then (x.products.length : Int) else 0) + activeProdSum t) - _ + _
      ring
    | succ j =>
      have hj : j < t.length := by simpa using h
      show activeProdSum (x :: t.set j c) = _
      have h0 : (x :: t).get ⟨j + 1, h⟩ = t.get ⟨j, hj⟩ := rfl
      rw [h0]
      show (if x.isActive then (x.products.length : Int) else 0) + activeProdSum (t.set j c) = _
      rw [ih j hj]
      show _ = ((if x.isActive then (x.products.length : Int) else 0) + activeProdSum t) - _ + _
      ring

lemma Cat.init_ok_active {n d ps : PyObj} {c : Cat}
    (h : Cat.init n d ps = .ok c) : c.isActive = true := by
  unfold Cat.init at h
  repeat' split at h
  all_goals try (cases h)
  all_goals rfl

lemma categoryInit_ok {s s' : CatState} {i : Nat} {n d ps : PyObj}
    (h : categoryInit s n d ps = .ok (s', i)) :
    ∃ c, Cat.init n d ps = .ok c ∧
      s' = ⟨s.cats ++ [c], s.categoryCount + 1,
            s.productCount + (c.products.length : Int)⟩ := by
  unfold categoryInit at h
  cases hc : Cat.init n d ps with
  | error e => rw [hc] at h; cases h
  | ok c =>
    rw [hc] at h
    cases h
    exact ⟨c, rfl, rfl⟩

lemma inv_newCategory {s s' : CatState} {i : Nat} {n d ps : PyObj}
    (h : categoryInit s n d ps = .ok (s', i)) (hinv : CounterInv s) :
    CounterInv s' := by
  obtain ⟨c, hc, rfl⟩ := categoryInit_ok h
  have hca := Cat.init_ok_active hc
  obtain ⟨h1, h2⟩ := hinv
  refine ⟨?_, ?_⟩
  · show s.categoryCount + 1 = activeCount (s.cats ++ [c])
    rw [activeCount_append, h1]
    simp [activeCount, hca]
  · show s.productCount + (c.products.length : Int) = activeProdSum (s.cats ++ [c])
    rw [activeProdSum_append, h2]
    simp [activeProdSum, hca]

lemma inv_set_cat {s : CatState} {i : Nat} (h : i < s.cats.length)
    (c' : Cat) (cc' pc' : Int) (hinv : CounterInv s)
    (hcc : cc' = s.categoryCount
        - (if (s.cats.get ⟨i, h⟩).isActive then (1 : Int) else 0)
        + (if c'.isActive then (1 : Int) else 0))
    (hpc : pc' = s.productCount
        - (if (s.cats.get ⟨i, h⟩).isActive
            then ((s.cats.get ⟨i, h⟩).products.length : Int) else 0)
        + (if c'.isActive then (c'.products.length : Int) else 0)) :
    CounterInv ⟨s.cats.set i c', cc', pc'⟩ := by
  obtain ⟨h1, h2⟩ := hinv
  refine ⟨?_, ?_⟩
  · show cc' = activeCount (s.cats.set i c')
    rw [activeCount_set _ i _ h, ← h1]
    exact hcc
  · show pc' = activeProdSum (s.cats.set i c')
    rw [activeProdSum_set _ i _ h, ← h2]
    exact hpc

lemma inv_addProduct {s : CatState} {i : Nat} {h : i < s.cats.length}
    {arg : PyObj} (hact : (s.cats.get ⟨i, h⟩).isActive = true)
    (hinv : CounterInv s) : CounterInv (stateAddProduct s i h arg) := by
  cases arg with
  | prod p =>
    by_cases hm : pyMem p (s.cats.get ⟨i, h⟩).products
    · have hr : addProduct (s.cats.get ⟨i, h⟩) s.productCount (.prod p) =
          (s.cats.get ⟨i, h⟩, s.productCount,
           ["❌ Ошибка: Товар уже есть в категории", addDoneMsg]) := by
        simp only [addProduct]
        rw [if_pos hm]
      unfold stateAddProduct
      rw [hr]
      refine inv_set_cat h _ _ _ hinv (by ring) (by ring)
    · by_cases hq : p.quantity = 0
      · have hr : addProduct (s.cats.get ⟨i, h⟩) s.productCount (.prod p) =
            (s.cats.get ⟨i, h⟩, s.productCount,
             ["❌ Ошибка: " ++ zeroQuantityMsg, addDoneMsg]) := by
          simp only [addProduct]
          rw [if_neg hm, if_pos hq]
        unfold stateAddProduct
        rw [hr]
        refine inv_set_cat h _ _ _ hinv (by ring) (by ring)
      · have hr : addProduct (s.cats.get ⟨i, h⟩) s.productCount (.prod p) =
            ({ s.cats.get ⟨i, h⟩ with
                products := (s.cats.get ⟨i, h⟩).products ++ [p] },
             s.productCount + 1,
             ["✅ Товар " ++ p.name ++ " успешно добавлен", addDoneMsg]) := by
          simp only [addProduct]
          rw [if_neg hm, if_neg hq]
        unfold stateAddProduct
        rw [hr]
        refine inv_set_cat h _ _ _ hinv ?_ ?_
        · show s.categoryCount = s.categoryCount
              - (if (s.cats.get ⟨i, h⟩).isActive then (1 : Int) else 0)
              + (if (s.cats.get ⟨i, h⟩).isActive then (1 : Int) else 0)
          ring
        · show s.productCount + 1 = s.productCount
              - (if (s.cats.get ⟨i, h⟩).isActive
                  then ((s.cats.get ⟨i, h⟩).products.length : Int) else 0)
              + (if (s.cats.get ⟨i, h⟩).isActive
                  then ((((s.cats.get ⟨i, h⟩).products ++ [p]).length : Nat) : Int)
                  else 0)
          rw [hact, List.length_append]
          push_cast
          norm_num
          ring
  | str s0 =>
    have hr : addProduct (s.cats.get ⟨i, h⟩) s.productCount (.str s0) =
        (s.cats.get ⟨i, h⟩, s.productCount,
         ["❌ Ошибка типа: Можно добавлять только объекты Product", addDoneMsg]) := rfl
    unfold stateAddProduct
    rw [hr]
    refine inv_set_cat h _ _ _ hinv (by ring) (by ring)
  | int n =>
    have hr : addProduct (s.cats.get ⟨i, h⟩) s.productCount (.int n) =
        (s.cats.get ⟨i, h⟩, s.productCount,
         ["❌ Ошибка типа: Можно добавлять только объекты Product", addDoneMsg]) := rfl
    unfold stateAddProduct
    rw [hr]
    refine inv_set_cat h _ _ _ hinv (by ring) (by ring)
  | float q =>
    have hr : addProduct (s.cats.get ⟨i, h⟩) s.productCount (.float q) =
        (s.cats.get ⟨i, h⟩, s.productCount,
         ["❌ Ошибка типа: Можно добавлять только объекты Product", addDoneMsg]) := rfl
    unfold stateAddProduct
    rw [hr]
    refine inv_set_cat h _ _ _ hinv (by ring) (by ring)
  | noneObj =>
    have hr : addProduct (s.cats.get ⟨i, h⟩) s.productCount .noneObj =
        (s.cats.get ⟨i, h⟩, s.productCount,
         ["❌ Ошибка типа: Можно добавлять только объекты Product", addDoneMsg]) := rfl
    unfold stateAddProduct
    rw [hr]
    refine inv_set_cat h _ _ _ hinv (by ring) (by ring)
  | list l =>
    have hr : addProduct (s.cats.get ⟨i, h⟩) s.productCount (.list l) =
        (s.cats.get ⟨i, h⟩, s.productCount,
         ["❌ Ошибка типа: Можно добавлять только объекты Product", addDoneMsg]) := rfl
    unfold stateAddProduct
    rw [hr]
    refine inv_set_cat h _ _ _ hinv (by ring) (by ring)

lemma inv_removeCategory {s : CatState} {i : Nat} {h : i < s.cats.length}
    (hinv : CounterInv s) : CounterInv (stateRemoveCategory s i h).2 := by
  obtain ⟨h1, h2⟩ := hinv
  cases hfl : (s.cats.get ⟨i, h⟩).isActive with
  | false =>
    have hr : removeCategory (s.cats.get ⟨i, h⟩) s.categoryCount
        s.productCount = .error (.valueError "Категория уже удалена") := by
      unfold removeCategory
      rw [if_pos hfl]
    unfold stateRemoveCategory
    rw [hr]
    exact ⟨h1, h2⟩
  | true =>
    have hne : ¬ ((s.cats.get ⟨i, h⟩).isActive = false) := by
      rw [hfl]
      exact fun hc => Bool.noConfusion hc
    have hr : removeCategory (s.cats.get ⟨i, h⟩) s.categoryCount
        s.productCount =
        .ok ({ s.cats.get ⟨i, h⟩ with products := [], isActive := false },
             s.categoryCount - 1,
             s.productCount - (((s.cats.get ⟨i, h⟩).products.length : Int))) := by
      unfold removeCategory
      rw [if_neg hne]
    unfold stateRemoveCategory
    rw [hr]
    refine inv_set_cat h _ _ _ ⟨h1, h2⟩ ?_ ?_
    · show s.categoryCount - 1 = s.categoryCount
          - (if (s.cats.get ⟨i, h⟩).isActive then (1 : Int) else 0)
          + (if (false : Bool) then (1 : Int) else 0)
      rw [hfl]
      norm_num
    · show s.productCount - ((s.cats.get ⟨i, h⟩).products.length : Int) =
          s.productCount
          - (if (s.cats.get ⟨i, h⟩).isActive
              then ((s.cats.get ⟨i, h⟩).products.length : Int) else 0)
          + (if (false : Bool) then ((([] : List Product).length : Nat) : Int) else 0)
      rw [hfl]
      norm_num

/-- Claim C2 as amended: when `Category` construction, `add_product` *on
active categories*, and `remove_category` are the only mutations, every
reachable state satisfies the counter invariant — `category_count` is the
number of active instances and `product_count` the sum of their product list
lengths. -/
theorem c2_counters_invariant_active_adds :
    ∀ s : CatState, ReachableA s → CounterInv s := by
  intro s h
  unfold ReachableA at h
  induction h with
  | refl => exact ⟨rfl, rfl⟩
  | tail hr hstep ih =>
    cases hstep with
    | newCategory n d ps hok => exact inv_newCategory hok ih
    | newCategoryFailed n d ps e herr => exact ih
    | addProduct i hlt arg hact => exact inv_addProduct hact ih
    | removeCategory i hlt => exact inv_removeCategory ih

theorem c2_counters_invariant_active_adds_witness : CounterInv initState :=
  c2_counters_invariant_active_adds initState Relation.ReflTransGen.refl

/-- Claim C2 as stated is false: constructing a category, removing it, and
then calling `add_product` on the now-inactive instance (the source never
guards `add_product` with the active flag) yields a reachable state with
`product_count = 1` while no active category exists. -/
theorem c2_counters_invariant_counterexample :
    ¬ (∀ s : CatState, Reachable s → CounterInv s) := by
  intro hall
  have h1 : categoryInit initState (.str "A") (.str "B") (.list []) =
      .ok (⟨[⟨"A", "B", [], true⟩], 1, 0⟩, 0) := by decide
  have s1 : Step initState ⟨[⟨"A", "B", [], true⟩], 1, 0⟩ :=
    Step.newCategory _ _ _ h1
  have hlt1 : (0 : Nat) <
      (⟨[⟨"A", "B", [], true⟩], 1, 0⟩ : CatState).cats.length := by decide
  have h2 : (stateRemoveCategory ⟨[⟨"A", "B", [], true⟩], 1, 0⟩ 0 hlt1).2 =
      ⟨[⟨"A", "B", [], false⟩], 0, 0⟩ := rfl
  have s2 : Step ⟨[⟨"A", "B", [], true⟩], 1, 0⟩
      ⟨[⟨"A", "B", [], false⟩], 0, 0⟩ := by
    have hst := Step.removeCategory (s := ⟨[⟨"A", "B", [], true⟩], 1, 0⟩) 0 hlt1
    rwa [h2] at hst
  have hlt2 : (0 : Nat) <
      (⟨[⟨"A", "B", [], false⟩], 0, 0⟩ : CatState).cats.length := by decide
  have h3 : stateAddProduct ⟨[⟨"A", "B", [], false⟩], 0, 0⟩ 0 hlt2
      (.prod ⟨0, .product, "P", "D", 100, 5⟩) =
      ⟨[⟨"A", "B", [⟨0, .product, "P", "D", 100, 5⟩], false⟩], 0, 1⟩ := rfl
  have s3 : Step ⟨[⟨"A", "B", [], false⟩], 0, 0⟩
      ⟨[⟨"A", "B", [⟨0, .product, "P", "D", 100, 5⟩], false⟩], 0, 1⟩ := by
    have hst := Step.addProduct (s := ⟨[⟨"A", "B", [], false⟩], 0, 0⟩) 0 hlt2
      (.prod ⟨0, .product, "P", "D", 100, 5⟩)
    rwa [h3] at hst
  have hreach :
      Reachable ⟨[⟨"A", "B", [⟨0, .product, "P", "D", 100, 5⟩], false⟩], 0, 1⟩ :=
    Relation.ReflTransGen.head s1 (Relation.ReflTransGen.head s2
      (Relation.ReflTransGen.head s3 Relation.ReflTransGen.refl))
  have hbad : ¬ CounterInv
      ⟨[⟨"A", "B", [⟨0, .product, "P", "D", 100, 5⟩], false⟩], 0, 1⟩ := by decide
  exact hbad (hall _ hreach)

end EcommerceHW
